import Mathlib

/-!
Shallow embedding of the content-routing and resilient-invocation core of the
puckr backend (src/backend/app): the content classifier and prompt enhancement
of helpers/ai_helper.py, the Gemini document/video retry loops and the fallback
of service/llm/gemini_service.py, the Grok retry loop and payload construction
of service/llm/grok_service.py, and the Perplexity payload construction of
service/llm/perplexity_service.py.

Network calls are modelled by adapter functions mapping the attempt index to
the outcome observed at the adapter boundary; Python dicts are modelled as
structures whose `Option`-typed fields record key presence.
-/

/-- Substring membership over character lists, used to model Python's
`needle in haystack` on strings. -/
def containsSubChars (needle : List Char) : List Char → Bool
  | [] => needle.isEmpty
  | c :: rest => needle.isPrefixOf (c :: rest) || containsSubChars needle rest

/-- Python's `needle in haystack` for strings. -/
def containsSub (hay needle : String) : Bool :=
  containsSubChars needle.data hay.data

/-- Character-wise lowering, modelling Python's `str.lower()` on the ASCII
identifiers and messages this code base uses. -/
def pyLower (s : String) : String :=
  String.mk (s.data.map Char.toLower)

/-- `a ++ b` is non-empty when `a` is. -/
theorem ne_empty_append (a b : String) (h : a ≠ "") : a ++ b ≠ "" := by
  intro hc
  apply h
  have hd := congrArg String.data hc
  have h2 : a.data ++ b.data = [] := by simpa using hd
  have ha : a.data = [] := (List.append_eq_nil.mp h2).1
  cases a with
  | mk d => simp_all

/-- The three provider services constructed by `AIHelperService.__init__`
(ai_helper.py).  In the spec's vocabulary: `gemini` is the DocVideo provider,
`grok` the SocialLive provider, `perplexity` the WebText provider. -/
inductive LlmService where
  | gemini
  | grok
  | perplexity
deriving DecidableEq

/-- `AIHelperService._get_llm_service` (ai_helper.py, lines 43-61): chained
`content_type in [...]` membership tests with a Gemini default. -/
def get_llm_service (content_type : String) : LlmService :=
  if content_type ∈ ["pdf", "word", "document"] then .gemini
  else if content_type ∈ ["youtube", "video"] then .gemini
  else if content_type ∈ ["twitter", "x", "x_post"] then .grok
  else if content_type ∈ ["reddit", "blog"] then .perplexity
  else .gemini

/-- The `context_map` literal of `_enhance_prompt_with_context`
(ai_helper.py, lines 68-79). -/
def context_map : List (String × String) :=
  [("pdf", "You are analyzing a PDF document. Focus on extracting key information, main points, and insights from the document structure and content."),
   ("word", "You are analyzing a Word document. Extract key information, main points, and insights from the document content."),
   ("document", "You are analyzing a document. Extract key information, main points, and insights from the content."),
   ("youtube", "You are analyzing a YouTube video. Focus on the video content, key topics discussed, and main insights from the visual and audio content."),
   ("video", "You are analyzing a video. Focus on the visual and audio content, key topics, and main insights."),
   ("twitter", "You are analyzing X (Twitter) content using Grok's live search capabilities. Focus on the key messages, context, engagement, related discussions, and broader implications from the social media content."),
   ("x", "You are analyzing X (Twitter) content using Grok's live search capabilities. Focus on the key messages, context, engagement, related discussions, and broader implications from the social media content."),
   ("x_post", "You are analyzing X (Twitter) content using Grok's live search capabilities. Focus on the key messages, context, engagement, related discussions, and broader implications from the social media content."),
   ("reddit", "You are analyzing Reddit content. Focus on the discussion, key points, and community insights from the forum content."),
   ("blog", "You are analyzing a blog post or article. Focus on the main arguments, key insights, and important information from the written content.")]

/-- The default used by `context_map.get(content_type.lower(), ...)`. -/
def default_context : String :=
  "You are analyzing content. Provide clear, concise insights based on the provided information."

/-- `context_map.get(content_type.lower(), default)` (ai_helper.py line 82). -/
def context_for (content_type : String) : String :=
  (context_map.lookup (pyLower content_type)).getD default_context

/-- `AIHelperService._enhance_prompt_with_context` (ai_helper.py, lines 63-92).
`content_name` is the optional name argument; Python's `if content_name:`
treats an empty string like an absent one. -/
def enhance_prompt_with_context (original_prompt content_type : String)
    (content_name : Option String) : String :=
  let context := context_for content_type
  match content_name with
  | some n =>
      if n = "" then context ++ "\n\nUser Request: " ++ original_prompt
      else context ++ "\n\nContent: " ++ n ++ "\n\nUser Request: " ++ original_prompt
  | none => context ++ "\n\nUser Request: " ++ original_prompt

/-- The spec's `classify`: the provider choice of `_get_llm_service` paired
with the context prefix chosen by `_enhance_prompt_with_context`. -/
def classify (content_kind : String) : LlmService × String :=
  (get_llm_service content_kind, context_for content_kind)

namespace Gemini

/-- A part of a Gemini candidate's content: the optional `"text"` key. -/
structure Part where
  text : Option String

/-- A candidate's `"content"` value: the optional `"parts"` key. -/
structure Content where
  parts : Option (List Part)

/-- A candidate: the optional `"content"` key. -/
structure Candidate where
  content : Option Content

/-- A decoded Gemini JSON response body: the `"candidates"` list (a missing
key and an empty list take the same paths in the source). -/
structure Response where
  candidates : List Candidate

/-- What one attempt of the `generateContent` HTTP call can yield at the
adapter boundary (gemini_service.py, lines 274-291): an `httpx.ReadTimeout`,
a non-200 status with a body, a body that is not JSON, or a decoded body. -/
inductive AttemptOutcome where
  | timeout
  | httpError (status : Nat) (body : String)
  | malformedJson
  | ok (resp : Response)

/-- What one attempt of `httpx` `client.get` inside `_fetch_url_content`
can yield: a read timeout or a response with a status and a body. -/
inductive FetchOutcome where
  | timeout
  | resp (status : Nat) (content : String)

/-- The exceptions `_call_gemini_api_with_pdf`, `_call_gemini_api_with_youtube`
and `_fetch_url_content` can terminate with. -/
inductive Error where
  | pdfTimeout (attempts : Nat)
  | ytTimeout (attempts : Nat)
  | fetchTimeout (url : String) (attempts : Nat)
  | apiError (status : Nat) (body : String)
  | fetchFailed (url : String) (status : Nat)
  | noValidYt
  | jsonError

/-- `str(e)` of each modelled exception (the literal message built at each
`raise` site; `jsonError` is the fixed message of a `JSONDecodeError` on an
empty or non-JSON body). -/
def errorMessage : Error → String
  | .pdfTimeout n =>
      "Gemini API timeout after " ++ (toString n ++ " attempts. The request is taking too long to process.")
  | .ytTimeout n =>
      "YouTube video processing timed out after " ++ (toString n ++ " attempts. The video may be too long or the request is taking too long to process.")
  | .fetchTimeout u n =>
      "Failed to fetch URL " ++ (u ++ (" after " ++ (toString n ++ " attempts due to timeout.")))
  | .apiError s b =>
      "Gemini API error: " ++ (toString s ++ (" - " ++ b))
  | .fetchFailed u s =>
      "Failed to fetch URL " ++ (u ++ (": " ++ toString s))
  | .noValidYt => "No valid response generated from Gemini API for YouTube video"
  | .jsonError => "Expecting value: line 1 column 1 (char 0)"

/-- The trace of one retry loop: its final result, how many adapter attempts
were made, the per-attempt timeout budgets handed to the HTTP client, and the
backoff sleeps performed between attempts. -/
structure CallTrace where
  result : Except Error String
  attempts : Nat
  timeouts : List Nat
  sleeps : List Nat

/-- The text-extraction conditions of `_call_gemini_api_with_pdf`
(gemini_service.py, lines 293-325): first candidate, `"content"`, `"parts"`,
non-empty parts, a `"text"` key, and a non-blank text (`response_text.strip()`).
`none` means the source takes one of the fallback branches. -/
def extractPdfText (r : Response) : Option String :=
  match r.candidates with
  | [] => none
  | c :: _ =>
    match c.content with
    | none => none
    | some ct =>
      match ct.parts with
      | none => none
      | some [] => none
      | some (p :: _) =>
        match p.text with
        | none => none
        | some t => if t.data.all Char.isWhitespace then none else some t

/-- Outcome of the single `_fallback_text_processing` API call
(gemini_service.py, lines 486-554).  Every case other than a present
`"text"` value raises inside the fallback's `try` and is caught there. -/
inductive FallbackOutcome where
  | timeout
  | httpError (status : Nat) (body : String)
  | malformedJson
  | noCandidates
  | missingStructure
  | okText (t : String)

/-- Whether the fallback call produced a present `"text"` value. -/
def FallbackOutcome.producedText : FallbackOutcome → Bool
  | .okText _ => true
  | _ => false

/-- The placeholder returned when the fallback itself fails
(gemini_service.py, line 554). -/
def unableMsg : String :=
  "Unable to process the document. The file may be corrupted or in an unsupported format."

/-- `_fallback_text_processing`: the whole body is wrapped in
`try ... except Exception`, so every failing case returns the placeholder and
the function never raises; a present `"text"` value is returned verbatim,
with no blank check (gemini_service.py, lines 543-554). -/
def fallback_text_processing : FallbackOutcome → String
  | .okText t => t
  | _ => unableMsg

/-- The retry loop of `_call_gemini_api_with_pdf` (gemini_service.py,
lines 265-342): `max_retries = 3`, `base_timeout = 30`, per-attempt timeout
`30 * 2 ** attempt`.  `rest` holds the attempt indices still available, so
`rest = []` is exactly the source's `attempt == max_retries - 1`.  A timeout
on the last attempt raises the timeout-exhausted message; any other exception
on the last attempt is re-raised; both sleep `2 ** attempt` seconds and retry
otherwise.  A response with no usable text returns the fallback's result. -/
def pdfLoopGo (adapter : Nat → AttemptOutcome) (fb : FallbackOutcome) :
    Nat → List Nat → CallTrace
  | attempt, [] =>
    match adapter attempt with
    | .timeout => ⟨.error (.pdfTimeout 3), 1, [30 * 2 ^ attempt], []⟩
    | .httpError s b => ⟨.error (.apiError s b), 1, [30 * 2 ^ attempt], []⟩
    | .malformedJson => ⟨.error .jsonError, 1, [30 * 2 ^ attempt], []⟩
    | .ok resp =>
      match extractPdfText resp with
      | some t => ⟨.ok t, 1, [30 * 2 ^ attempt], []⟩
      | none => ⟨.ok (fallback_text_processing fb), 1, [30 * 2 ^ attempt], []⟩
  | attempt, a :: rs =>
    match adapter attempt with
    | .timeout =>
      let r := pdfLoopGo adapter fb a rs
      ⟨r.result, r.attempts + 1, 30 * 2 ^ attempt :: r.timeouts, 2 ^ attempt :: r.sleeps⟩
    | .httpError _ _ =>
      let r := pdfLoopGo adapter fb a rs
      ⟨r.result, r.attempts + 1, 30 * 2 ^ attempt :: r.timeouts, 2 ^ attempt :: r.sleeps⟩
    | .malformedJson =>
      let r := pdfLoopGo adapter fb a rs
      ⟨r.result, r.attempts + 1, 30 * 2 ^ attempt :: r.timeouts, 2 ^ attempt :: r.sleeps⟩
    | .ok resp =>
      match extractPdfText resp with
      | some t => ⟨.ok t, 1, [30 * 2 ^ attempt], []⟩
      | none => ⟨.ok (fallback_text_processing fb), 1, [30 * 2 ^ attempt], []⟩

/-- The retry loop of `_fetch_url_content` (gemini_service.py, lines 444-484):
`max_retries = 3`, `base_timeout = 30`.  A 200 response returns its content;
any other status raises and, being caught by the generic handler, is retried
like a timeout until the last attempt. -/
def fetchLoopGo (url : String) (fetch : Nat → FetchOutcome) :
    Nat → List Nat → CallTrace
  | attempt, [] =>
    match fetch attempt with
    | .timeout => ⟨.error (.fetchTimeout url 3), 1, [30 * 2 ^ attempt], []⟩
    | .resp s c =>
      if s = 200 then ⟨.ok c, 1, [30 * 2 ^ attempt], []⟩
      else ⟨.error (.fetchFailed url s), 1, [30 * 2 ^ attempt], []⟩
  | attempt, a :: rs =>
    match fetch attempt with
    | .timeout =>
      let r := fetchLoopGo url fetch a rs
      ⟨r.result, r.attempts + 1, 30 * 2 ^ attempt :: r.timeouts, 2 ^ attempt :: r.sleeps⟩
    | .resp s c =>
      if s = 200 then ⟨.ok c, 1, [30 * 2 ^ attempt], []⟩
      else
        let r := fetchLoopGo url fetch a rs
        ⟨r.result, r.attempts + 1, 30 * 2 ^ attempt :: r.timeouts, 2 ^ attempt :: r.sleeps⟩

/-- `_fetch_url_content(url)` with its `for attempt in range(3)` loop. -/
def fetch_url_content (url : String) (fetch : Nat → FetchOutcome) : CallTrace :=
  fetchLoopGo url fetch 0 [1, 2]

/-- The text-extraction conditions of `_call_gemini_api_with_youtube`
(gemini_service.py, lines 402-409): same shape checks as the PDF path but
no blank-text check and no fallback — a `none` here raises
"No valid response generated..." inside the `try`. -/
def extractYtText (r : Response) : Option String :=
  match r.candidates with
  | [] => none
  | c :: _ =>
    match c.content with
    | none => none
    | some ct =>
      match ct.parts with
      | none => none
      | some [] => none
      | some (p :: _) => p.text

/-- The retry loop of `_call_gemini_api_with_youtube` (gemini_service.py,
lines 375-428): `max_retries = 3`, `base_timeout = 60`.  The
"No valid response" exception is raised inside the `try`, so it too is caught
by the generic handler and retried until the last attempt. -/
def ytLoopGo (adapter : Nat → AttemptOutcome) : Nat → List Nat → CallTrace
  | attempt, [] =>
    match adapter attempt with
    | .timeout => ⟨.error (.ytTimeout 3), 1, [60 * 2 ^ attempt], []⟩
    | .httpError s b => ⟨.error (.apiError s b), 1, [60 * 2 ^ attempt], []⟩
    | .malformedJson => ⟨.error .jsonError, 1, [60 * 2 ^ attempt], []⟩
    | .ok resp =>
      match extractYtText resp with
      | some t => ⟨.ok t, 1, [60 * 2 ^ attempt], []⟩
      | none => ⟨.error .noValidYt, 1, [60 * 2 ^ attempt], []⟩
  | attempt, a :: rs =>
    match adapter attempt with
    | .timeout =>
      let r := ytLoopGo adapter a rs
      ⟨r.result, r.attempts + 1, 60 * 2 ^ attempt :: r.timeouts, 2 ^ attempt :: r.sleeps⟩
    | .httpError _ _ =>
      let r := ytLoopGo adapter a rs
      ⟨r.result, r.attempts + 1, 60 * 2 ^ attempt :: r.timeouts, 2 ^ attempt :: r.sleeps⟩
    | .malformedJson =>
      let r := ytLoopGo adapter a rs
      ⟨r.result, r.attempts + 1, 60 * 2 ^ attempt :: r.timeouts, 2 ^ attempt :: r.sleeps⟩
    | .ok resp =>
      match extractYtText resp with
      | some t => ⟨.ok t, 1, [60 * 2 ^ attempt], []⟩
      | none =>
        let r := ytLoopGo adapter a rs
        ⟨r.result, r.attempts + 1, 60 * 2 ^ attempt :: r.timeouts, 2 ^ attempt :: r.sleeps⟩

/-- `_call_gemini_api_with_youtube` with its `for attempt in range(3)` loop. -/
def call_gemini_api_with_youtube (adapter : Nat → AttemptOutcome) : CallTrace :=
  ytLoopGo adapter 0 [1, 2]

/-- The `pdf_data` argument of `_call_gemini_api_with_pdf`: a single URL or
bytes value, or a list of such items (gemini_service.py, lines 194-238).
Byte blocks are carried abstractly as strings. -/
inductive PdfItem where
  | url (u : String)
  | bytes (b : String)

/-- The `pdf_data` shapes accepted by `_call_gemini_api_with_pdf`. -/
inductive PdfData where
  | url (u : String)
  | bytes (b : String)
  | many (items : List PdfItem)

/-- `item.startswith('http://') or item.startswith('https://')`. -/
def startsHttp (s : String) : Bool :=
  s.startsWith "http://" || s.startsWith "https://"

/-- The result of `_fetch_url_content` flattened to its exception or its
content. -/
def fetchResult (fetch : String → Nat → FetchOutcome) (u : String) :
    Except Error String :=
  (fetch_url_content u (fetch u)).result

/-- The part-building prelude of `_call_gemini_api_with_pdf`
(gemini_service.py, lines 192-241), which runs before the retry loop: each
URL item is fetched through `_fetch_url_content`, whose failure propagates
out of the whole call.  The base64 payload bodies it assembles are not
needed by any verified property, so only the fetch effects are modelled;
a string item not starting with http(s) adds no part and proceeds. -/
def buildPdfParts (fetch : String → Nat → FetchOutcome) :
    List PdfItem → Except Error Unit
  | [] => .ok ()
  | .url u :: rest =>
    if startsHttp u then
      match fetchResult fetch u with
      | .error e => .error e
      | .ok _ => buildPdfParts fetch rest
    else buildPdfParts fetch rest
  | .bytes _ :: rest => buildPdfParts fetch rest

/-- The prelude applied to each accepted `pdf_data` shape. -/
def buildPdfData (fetch : String → Nat → FetchOutcome) :
    PdfData → Except Error Unit
  | .url u =>
    if startsHttp u then
      match fetchResult fetch u with
      | .error e => .error e
      | .ok _ => .ok ()
    else .ok ()
  | .bytes _ => .ok ()
  | .many items => buildPdfParts fetch items

/-- `_call_gemini_api_with_pdf(prompt, pdf_data)`: fetch-based part building,
then the `for attempt in range(3)` retry loop.  A fetch failure yields an
errored trace with zero `generateContent` attempts. -/
def call_gemini_api_with_pdf (pdf : PdfData) (fetch : String → Nat → FetchOutcome)
    (adapter : Nat → AttemptOutcome) (fb : FallbackOutcome) : CallTrace :=
  match buildPdfData fetch pdf with
  | .error e => ⟨.error e, 0, [], []⟩
  | .ok _ => pdfLoopGo adapter fb 0 [1, 2]

end Gemini

/-- A Python result dict, with `Option` fields recording key presence:
`output` is the `"processing_results"` key, `error` the `"error"` key,
`prompt` the `"prompt"` key set by the services, `originalPrompt` the
`"original_prompt"` key added by the helper, `contentType` the
`"content_type"` key. -/
structure ResultDict where
  success : Bool
  output : Option String := none
  error : Option String := none
  model : Option String := none
  service : Option String := none
  contentType : Option String := none
  prompt : Option String := none
  originalPrompt : Option String := none

namespace Gemini

/-- `GeminiService.process_documents` (gemini_service.py, lines 34-77): wraps
`_call_gemini_api_with_pdf` and converts its outcome into a result dict; the
success dict carries `"model"`, the failure dict does not. -/
def process_documents (pdf : PdfData) (fetch : String → Nat → FetchOutcome)
    (adapter : Nat → AttemptOutcome) (fb : FallbackOutcome)
    (prompt : String) : ResultDict :=
  match (call_gemini_api_with_pdf pdf fetch adapter fb).result with
  | .ok t =>
      { success := true, prompt := some prompt, output := some t,
        model := some "gemini-2.5-flash", service := some "gemini",
        contentType := some "pdf" }
  | .error e =>
      { success := false, error := some (errorMessage e),
        prompt := some prompt, service := some "gemini",
        contentType := some "pdf" }

/-- The characters terminating the capture group `[^&\n?#]+` of the YouTube
id patterns (gemini_service.py, lines 432-435). -/
def ytStop (c : Char) : Bool :=
  c == '&' || c == '\n' || c == '?' || c == '#'

/-- The capture `([^&\n?#]+)`: the maximal run of non-stop characters,
which must be non-empty. -/
def ytCapture (cs : List Char) : Option String :=
  let idChars := cs.takeWhile (fun c => !(ytStop c))
  if idChars.isEmpty then none else some (String.mk idChars)

/-- Match a literal alternative at the current position and capture after it. -/
def ytAlt (p : String) (cs : List Char) : Option String :=
  if p.data.isPrefixOf cs then ytCapture (cs.drop p.length) else none

/-- The first pattern's alternation, in regex order:
`(?:youtube\.com\/watch\?v=|youtu\.be\/|youtube\.com\/embed\/)([^&\n?#]+)`. -/
def ytPat1At (cs : List Char) : Option String :=
  match ytAlt "youtube.com/watch?v=" cs with
  | some v => some v
  | none =>
    match ytAlt "youtu.be/" cs with
    | some v => some v
    | none => ytAlt "youtube.com/embed/" cs

/-- `re.search` for the first pattern: leftmost matching position. -/
def ytSearchPat1 : List Char → Option String
  | [] => none
  | c :: rest =>
    match ytPat1At (c :: rest) with
    | some v => some v
    | none => ytSearchPat1 rest

/-- The tail of the second pattern after `youtube\.com\/watch\?` was matched:
`.*v=([^&\n?#]+)` with `.` not crossing a newline, greedy, so the rightmost
`v=` on the line with a non-empty capture wins. -/
def ytPat2Tail (cs : List Char) : Option String :=
  let n := (cs.takeWhile (fun c => c ≠ '\n')).length
  let idxs := (List.range (n + 1)).filter
    (fun i => "v=".data.isPrefixOf (cs.drop i) && (ytCapture (cs.drop (i + 2))).isSome)
  match idxs.getLast? with
  | some i => ytCapture (cs.drop (i + 2))
  | none => none

/-- The second pattern `youtube\.com\/watch\?.*v=([^&\n?#]+)` at one position. -/
def ytPat2At (cs : List Char) : Option String :=
  if "youtube.com/watch?".data.isPrefixOf cs then
    ytPat2Tail (cs.drop "youtube.com/watch?".length)
  else none

/-- `re.search` for the second pattern: leftmost position where the whole
pattern (including its capture) matches. -/
def ytSearchPat2 : List Char → Option String
  | [] => none
  | c :: rest =>
    match ytPat2At (c :: rest) with
    | some v => some v
    | none => ytSearchPat2 rest

/-- `GeminiService._extract_youtube_video_id` (gemini_service.py,
lines 430-442): the patterns are tried in order, the first that matches
anywhere yields its capture group. -/
def extract_youtube_video_id (url : String) : Option String :=
  match ytSearchPat1 url.data with
  | some v => some v
  | none => ytSearchPat2 url.data

/-- `GeminiService.process_youtube_video` (gemini_service.py, lines 135-177):
an unextractable id raises `ValueError("Invalid YouTube URL provided")`,
caught by the method's own handler; otherwise the YouTube retry loop runs and
its outcome is wrapped.  The failure dict substitutes a fixed message when
`str(e)` is empty. -/
def process_youtube_video (yurl : String) (adapter : Nat → AttemptOutcome)
    (prompt : String) : ResultDict :=
  match extract_youtube_video_id yurl with
  | none =>
      { success := false, error := some "Invalid YouTube URL provided",
        prompt := some prompt, service := some "gemini",
        contentType := some "youtube" }
  | some _ =>
      match (call_gemini_api_with_youtube adapter).result with
      | .ok t =>
          { success := true, prompt := some prompt, output := some t,
            model := some "gemini-2.5-flash", service := some "gemini",
            contentType := some "youtube" }
      | .error e =>
          let m := errorMessage e
          let em := if m = "" then "Unknown error occurred during YouTube video processing" else m
          { success := false, error := some em, prompt := some prompt,
            service := some "gemini", contentType := some "youtube" }

/-- One item of the `content` argument of `GeminiService.process_content`:
a string (URL or text) or a byte block. -/
inductive ContentItem where
  | str (s : String)
  | bytes (b : String)

/-- The external behaviours one item's processing can observe: the URL-fetch
outcomes, the `generateContent` attempt outcomes of the document path, the
fallback call's outcome, and the attempt outcomes of the YouTube path. -/
structure DocEnv where
  fetch : String → Nat → FetchOutcome
  adapter : Nat → AttemptOutcome
  fb : FallbackOutcome
  ytAdapter : Nat → AttemptOutcome

/-- The per-item dispatch of `GeminiService.process_content`
(gemini_service.py, lines 101-118): a string containing "youtube.com" or
"youtu.be" goes to `process_youtube_video`, any other string and all bytes
go to `process_documents`. -/
def process_content_item (item : ContentItem) (env : DocEnv) (prompt : String) :
    ResultDict :=
  match item with
  | .str s =>
    if containsSub s "youtube.com" || containsSub s "youtu.be" then
      process_youtube_video s env.ytAdapter prompt
    else
      process_documents (.url s) env.fetch env.adapter env.fb prompt
  | .bytes b => process_documents (.bytes b) env.fetch env.adapter env.fb prompt

/-- The `for item in content` accumulation of per-item results, with the
environment indexed by the item's position. -/
def process_content_list (env : Nat → DocEnv) (prompt : String) :
    Nat → List ContentItem → List ResultDict
  | _, [] => []
  | idx, i :: rest =>
    process_content_item i (env idx) prompt ::
      process_content_list env prompt (idx + 1) rest

/-- The composite dict built when more than one (or zero) results were
collected (gemini_service.py, lines 124-133). -/
structure MixedResult where
  success : Bool
  output : List ResultDict
  model : Option String
  service : Option String
  contentType : Option String
  prompt : Option String

/-- What `GeminiService.process_content` returns: the single inner dict when
exactly one result was collected, a composite "mixed" dict otherwise. -/
inductive ProcessOutput where
  | single (r : ResultDict)
  | mixed (m : MixedResult)

/-- The `content` argument shapes of `GeminiService.process_content`: a single
item, normalized to a one-element list, or a list. -/
inductive ContentArg where
  | one (item : ContentItem)
  | many (items : List ContentItem)

/-- `GeminiService.process_content` (gemini_service.py, lines 79-133). -/
def process_content (arg : ContentArg) (env : Nat → DocEnv) (prompt : String) :
    ProcessOutput :=
  let items := match arg with | .one i => [i] | .many l => l
  let results := process_content_list env prompt 0 items
  match results with
  | [r] => .single r
  | rs =>
      .mixed { success := true, output := rs,
               model := some "gemini-2.5-flash", service := some "gemini",
               contentType := some "mixed", prompt := some prompt }

end Gemini

namespace Grok

/-- The module-level names bound by the import statements of grok_service.py
(lines 1-6): `import httpx`, `import json`, `import base64`,
`from typing import Dict, Any, Optional, Union, List`,
`from .llm_service import BaseLLMService`, `import os`. -/
def moduleBoundNames : List String :=
  ["httpx", "json", "base64", "Dict", "Any", "Optional", "Union", "List",
   "BaseLLMService", "os"]

/-- Whether the name `asyncio` resolves in the module scope of
grok_service.py. -/
def importsAsyncio : Bool :=
  moduleBoundNames.contains "asyncio"

/-- What one `_make_api_call` invocation can yield at the adapter boundary
(grok_service.py, lines 123-159): an `httpx.TimeoutException`, an
`httpx.RequestError`, a non-200 status, a body with no choices, or a chat
completion with its content and the optional `usage.num_sources_used`. -/
inductive ApiOutcome where
  | timeout
  | requestError (msg : String)
  | httpError (status : Nat) (body : String)
  | noChoices
  | ok (content : String) (numSourcesUsed : Option Nat)

/-- `_make_api_call`'s result: the returned content string, or `str(e)` of
the exception it raises (each `raise` site builds the message shown). -/
def make_api_call : ApiOutcome → Except String String
  | .timeout =>
      .error "Grok API timeout: The request took too long to complete. Please try again with a simpler prompt or try later when the service is less busy."
  | .requestError m => .error ("Grok API request error: " ++ m)
  | .httpError s b => .error ("Grok API error: " ++ (toString s ++ (" - " ++ b)))
  | .noChoices => .error "No response generated from Grok API"
  | .ok c n? =>
      .ok (match n? with
           | some n => c ++ ("\n\n[Analysis used " ++ (toString n ++ " data sources]"))
           | none => c)

/-- How `_call_simple_api` can terminate abnormally: re-raising the attempt's
exception, or the `NameError` raised when the backoff line evaluates the
unresolved name `asyncio`. -/
inductive CallError where
  | raised (msg : String)
  | nameError (nm : String)

/-- The trace of `_call_simple_api`: result, attempts made, sleeps performed. -/
structure CallTrace where
  result : Except CallError String
  attempts : Nat
  sleeps : List Nat

/-- The backoff line `await asyncio.sleep(2 ** attempt)` (grok_service.py,
line 73): evaluating it first resolves the name `asyncio`, which raises a
`NameError` when the module never bound it. -/
def backoffStep (attempt : Nat) : Except CallError Nat :=
  if importsAsyncio then .ok (2 ^ attempt) else .error (.nameError "asyncio")

/-- The retry loop of `_call_simple_api` (grok_service.py, lines 63-76):
`max_retries = 2`, `for attempt in range(max_retries + 1)`, so `rest = []`
is exactly where the source's `attempt < max_retries` guard is false.  An
exception whose message contains "timeout" (case-insensitively) triggers the
backoff-and-retry branch while attempts remain; any other exception is
re-raised at once. -/
def callSimpleApiGo (adapter : Nat → ApiOutcome) : Nat → List Nat → CallTrace
  | attempt, [] =>
    match make_api_call (adapter attempt) with
    | .ok t => ⟨.ok t, 1, []⟩
    | .error msg => ⟨.error (.raised msg), 1, []⟩
  | attempt, a :: rs =>
    match make_api_call (adapter attempt) with
    | .ok t => ⟨.ok t, 1, []⟩
    | .error msg =>
      if containsSub (pyLower msg) "timeout" then
        match backoffStep attempt with
        | .error e => ⟨.error e, 1, []⟩
        | .ok d =>
          let r := callSimpleApiGo adapter a rs
          ⟨r.result, r.attempts + 1, d :: r.sleeps⟩
      else ⟨.error (.raised msg), 1, []⟩

/-- `GrokService._call_simple_api` with its `for attempt in range(3)` loop. -/
def call_simple_api (adapter : Nat → ApiOutcome) : CallTrace :=
  callSimpleApiGo adapter 0 [1, 2]

/-- The `search_parameters` directive attached for X URLs
(grok_service.py, lines 115-121). -/
structure SearchParams where
  mode : String
  sources : List String
  returnCitations : Bool
  maxSearchResults : Nat

/-- The chat payload `_make_api_call` builds (grok_service.py, lines 88-121):
role-tagged messages plus the optional live-search directive. -/
structure Payload where
  messages : List (String × String)
  searchParameters : Option SearchParams

/-- The system prompt of `GrokService.process_content`
(grok_service.py, line 34). -/
def systemPrompt : String :=
  "You are Grok, an AI assistant. Provide clear, insightful analysis based on the provided content."

/-- The payload construction of `_make_api_call` (grok_service.py,
lines 88-121): the user prompt is prefixed with the content URL when one is
present, and the live-search directive is attached exactly when the URL
contains "twitter.com" or "x.com". -/
def buildPayload (system_prompt user_prompt : String) (url : Option String) :
    Payload :=
  let up := match url with
            | some u => "Content URL: " ++ (u ++ ("\n\nUser Request: " ++ user_prompt))
            | none => user_prompt
  let sp := match url with
            | some u =>
              if containsSub u "twitter.com" || containsSub u "x.com" then
                some { mode := "auto", sources := ["x"],
                       returnCitations := true, maxSearchResults := 3 }
              else none
            | none => none
  { messages := [("system", system_prompt), ("user", up)], searchParameters := sp }

/-- The `content` argument of `GrokService.process_content`: a string, or any
non-string shape (bytes, list), which yields no URL. -/
inductive GrokContent where
  | str (s : String)
  | other

/-- The URL extraction of `GrokService.process_content` (grok_service.py,
lines 37-42): a string containing "twitter.com" or "x.com", or any string
starting with "http", becomes the URL. -/
def extractUrl : GrokContent → Option String
  | .str s =>
    if containsSub s "twitter.com" || containsSub s "x.com" then some s
    else if s.startsWith "http" then some s
    else none
  | .other => none

/-- The payload `GrokService.process_content` hands to `_call_simple_api` for
a given locator. -/
def processPayload (content : GrokContent) (prompt : String) : Payload :=
  buildPayload systemPrompt prompt (extractUrl content)

end Grok

namespace Perplexity

/-- The `content` argument of `PerplexityService.process_content`: a string,
a byte block (decoded permissively, carried as a string), or a list whose
items are flattened with `str(...)` (carried as strings). -/
inductive PContent where
  | str (s : String)
  | bytes (b : String)
  | many (items : List String)

/-- The content flattening of `PerplexityService.process_content`
(perplexity_service.py, lines 35-40): lists joined with blank lines, bytes
decoded, strings kept. -/
def flattenContent : PContent → String
  | .str s => s
  | .bytes b => b
  | .many l => String.intercalate "\n\n" l

/-- The system prompt of `PerplexityService.process_content` (line 32). -/
def systemPrompt : String :=
  "You are a content analysis assistant. Provide clear, well-structured insights based on the provided content. Focus on key information and practical takeaways."

/-- The chat payload of `_call_perplexity_api` (perplexity_service.py,
lines 76-95): messages plus the `"search"` key that is added only when
`search` is true. -/
structure Payload where
  messages : List (String × String)
  search : Option Bool

/-- The payload construction of `_call_perplexity_api`. -/
def callApiPayload (system_prompt user_prompt : String) (search : Bool) :
    Payload :=
  { messages := [("system", system_prompt), ("user", user_prompt)],
    search := if search then some true else none }

/-- The user prompt literal of `PerplexityService.process_content`
(lines 42-47), with the f-string's indentation kept. -/
def userPrompt (content : PContent) (prompt : String) : String :=
  "\n            Content to process:\n            " ++
    (flattenContent content ++
      ("\n            \n            Prompt: " ++ (prompt ++ "\n            ")))

/-- The payload `PerplexityService.process_content` sends: it always calls
`_call_perplexity_api(..., search=False)` (line 49). -/
def processPayload (content : PContent) (prompt : String) : Payload :=
  callApiPayload systemPrompt (userPrompt content prompt) false

end Perplexity

namespace AIHelper

/-- What the database fetch of `process_file` / `process_link` can yield:
no row (`result.data` falsy), a row with its url, type and optional display
name, or a raised exception with message `str(e)` (caught by the method's
outer handler). -/
inductive DbOutcome where
  | notFound
  | found (url : String) (ctype : String) (name : Option String)
  | raised (msg : String)

/-- The error-message cascade of `process_file`'s exception handler
(ai_helper.py, lines 146-157): substring matching on the lowered message. -/
def classify_file_error (msg : String) : String :=
  let m := pyLower msg
  if containsSub m "timeout" then
    "The AI service is taking too long to process your file. Please try again with a smaller file or try later."
  else if containsSub m "api" && containsSub m "key" then
    "AI service configuration error. Please contact support."
  else if containsSub m "fetch" && containsSub m "url" then
    "Unable to access the file. Please check if the file is still available."
  else if containsSub m "not found" then
    "File not found in the database."
  else
    "File processing failed: " ++ msg

/-- `AIHelperService.process_file` (ai_helper.py, lines 94-157).  The
dispatched service call is abstracted as `llm`, applied to the service chosen
by `_get_llm_service`, the file url, and the enhanced prompt; the services
catch internally and return dicts, so only the database stage can raise.
On the found path the helper overwrites `"content_type"` and adds
`"original_prompt"`; the not-found and exception dicts carry only `success`
and `error`. -/
def process_file (db : DbOutcome)
    (llm : LlmService → String → String → ResultDict)
    (prompt : String) : ResultDict :=
  match db with
  | .raised m => { success := false, error := some (classify_file_error m) }
  | .notFound => { success := false, error := some "File not found" }
  | .found url ftype name =>
    let fileName := name.getD "Unknown file"
    let enhanced := enhance_prompt_with_context prompt ftype (some fileName)
    let r := llm (get_llm_service ftype) url enhanced
    { r with contentType := some ftype, originalPrompt := some prompt }

/-- `AIHelperService.process_link` (ai_helper.py, lines 159-194): same shape
as `process_file` but with a single catch-all error message. -/
def process_link (db : DbOutcome)
    (llm : LlmService → String → String → ResultDict)
    (prompt : String) : ResultDict :=
  match db with
  | .raised m => { success := false, error := some ("Link processing failed: " ++ m) }
  | .notFound => { success := false, error := some "Link not found" }
  | .found url ltype title =>
    let linkTitle := title.getD "Unknown link"
    let enhanced := enhance_prompt_with_context prompt ltype (some linkTitle)
    let r := llm (get_llm_service ltype) url enhanced
    { r with contentType := some ltype, originalPrompt := some prompt }

end AIHelper

/-- The result-shape invariant of spec section 3: a failure dict carries a
non-empty error and no output, a success dict carries output and no error. -/
def shapeOk (r : ResultDict) : Prop :=
  (r.success = false → r.output = none ∧ r.error ≠ none ∧ r.error ≠ some "") ∧
  (r.success = true → r.error = none ∧ r.output ≠ none)

/-! Helper lemmas and concrete adapter stubs used by the verification. -/

/-- Every exception message of the Gemini paths is non-empty. -/
theorem errorMessage_ne_empty (e : Gemini.Error) : Gemini.errorMessage e ≠ "" := by
  cases e with
  | pdfTimeout n => exact ne_empty_append _ _ (by decide)
  | ytTimeout n => exact ne_empty_append _ _ (by decide)
  | fetchTimeout u n => exact ne_empty_append _ _ (by decide)
  | apiError s b => exact ne_empty_append _ _ (by decide)
  | fetchFailed u s => exact ne_empty_append _ _ (by decide)
  | noValidYt => decide
  | jsonError => decide

/-- Every message produced by `process_file`'s error cascade is non-empty. -/
theorem classify_file_error_ne_empty (m : String) :
    AIHelper.classify_file_error m ≠ "" := by
  unfold AIHelper.classify_file_error
  dsimp only
  split
  · decide
  split
  · decide
  split
  · decide
  split
  · decide
  exact ne_empty_append _ _ (by decide)

/-- An adapter stub that fails every attempt with a 500 status. -/
def always500 : Nat → Gemini.AttemptOutcome := fun _ => .httpError 500 "Internal Server Error"

/-- An adapter stub that times out on every `generateContent` attempt. -/
def alwaysTimeoutA : Nat → Gemini.AttemptOutcome := fun _ => .timeout

/-- A fetch stub that times out on every attempt (unused on bytes inputs). -/
def noFetch : String → Nat → Gemini.FetchOutcome := fun _ _ => .timeout

/-- A fetch stub that times out on every attempt of one URL. -/
def alwaysTimeoutF : Nat → Gemini.FetchOutcome := fun _ => .timeout

/-- A Grok adapter stub that times out on every attempt. -/
def alwaysTimeoutG : Nat → Grok.ApiOutcome := fun _ => .timeout

/-- A Grok adapter stub that fails every attempt with a 500 status. -/
def grok500 : Nat → Grok.ApiOutcome := fun _ => .httpError 500 "Bad"

/-- A structurally valid Gemini response whose only text is blank. -/
def blankResp : Gemini.Response := ⟨[⟨some ⟨some [⟨some ""⟩]⟩⟩]⟩

/-- An adapter stub that answers every attempt with `blankResp`. -/
def blankAdapter : Nat → Gemini.AttemptOutcome := fun _ => .ok blankResp

/-- A fallback outcome carrying a text value. -/
def fb0 : Gemini.FallbackOutcome := .okText "t"

/-- A stubbed provider call returning a fixed well-shaped success dict. -/
def llmOk : LlmService → String → String → ResultDict :=
  fun _ _ _ => { success := true, output := some "ok", service := some "stub" }

/-! Claim theorems. -/

/-- C4: `classify` (the provider selection of `_get_llm_service`) is total and
deterministic: every document and video kind maps to the Gemini (DocVideo)
provider, every social-post kind to the Grok (SocialLive) provider, every
forum/article kind to the Perplexity (WebText) provider, and every
unrecognized string to the Gemini default; being a total function it never
fails and always yields exactly one provider. -/
theorem c4_classifier_total :
    (∀ s : String, s ∈ ["pdf", "word", "document"] → get_llm_service s = .gemini) ∧
    (∀ s : String, s ∈ ["youtube", "video"] → get_llm_service s = .gemini) ∧
    (∀ s : String, s ∈ ["twitter", "x", "x_post"] → get_llm_service s = .grok) ∧
    (∀ s : String, s ∈ ["reddit", "blog"] → get_llm_service s = .perplexity) ∧
    (∀ s : String,
      s ∉ ["pdf", "word", "document", "youtube", "video", "twitter", "x",
           "x_post", "reddit", "blog"] →
      get_llm_service s = .gemini) := by
  refine ⟨?_, ?_, ?_, ?_, ?_⟩ <;> intro s h
  · simp only [List.mem_cons, List.not_mem_nil, or_false] at h
    rcases h with h | h | h <;> subst h <;> decide
  · simp only [List.mem_cons, List.not_mem_nil, or_false] at h
    rcases h with h | h <;> subst h <;> decide
  · simp only [List.mem_cons, List.not_mem_nil, or_false] at h
    rcases h with h | h | h <;> subst h <;> decide
  · simp only [List.mem_cons, List.not_mem_nil, or_false] at h
    rcases h with h | h <;> subst h <;> decide
  · simp only [List.mem_cons, List.not_mem_nil, or_false] at h
    push_neg at h
    obtain ⟨h1, h2, h3, h4, h5, h6, h7, h8, h9, h10⟩ := h
    simp [get_llm_service, h1, h2, h3, h4, h5, h6, h7, h8, h9, h10]

/-- C4 witness: the classifier evaluated on one kind of each family and on an
unrecognized string. -/
theorem c4_classifier_total_witness :
    get_llm_service "pdf" = .gemini ∧ get_llm_service "youtube" = .gemini ∧
    get_llm_service "x_post" = .grok ∧ get_llm_service "blog" = .perplexity ∧
    get_llm_service "mystery-kind" = .gemini :=
  ⟨c4_classifier_total.1 "pdf" (by decide),
   c4_classifier_total.2.1 "youtube" (by decide),
   c4_classifier_total.2.2.1 "x_post" (by decide),
   c4_classifier_total.2.2.2.1 "blog" (by decide),
   c4_classifier_total.2.2.2.2 "mystery-kind" (by decide)⟩

/-- C5 counterexample: classification is not case-insensitive as claimed —
for k = "Twitter", `classify k` differs from `classify` of its lowercase form,
because the provider selection of `_get_llm_service` compares
case-sensitively ("Twitter" falls to the Gemini default, "twitter" selects
Grok). -/
theorem c5_counterexample : classify "Twitter" ≠ classify "twitter" := by decide

/-- C5 (amended): only the context-prefix component of classification is
case-insensitive — any two content kinds with the same lowercase form get the
same prefix (`context_map.get(content_type.lower(), ...)`); the provider
component is case-sensitive, e.g. "Twitter" selects the Gemini default while
"twitter" selects Grok. -/
theorem c5_amended_case_insensitive_prefix :
    (∀ k1 k2 : String, pyLower k1 = pyLower k2 → context_for k1 = context_for k2) ∧
    get_llm_service "Twitter" = .gemini ∧ get_llm_service "twitter" = .grok := by
  refine ⟨?_, by decide, by decide⟩
  intro k1 k2 h
  simp [context_for, h]

/-- C5 witness: the prefix lookup agrees on "PDF" and "pdf". -/
theorem c5_amended_case_insensitive_prefix_witness :
    context_for "PDF" = context_for "pdf" :=
  c5_amended_case_insensitive_prefix.1 "PDF" "pdf" (by decide)

/-- C9: grok_service.py never imports `asyncio`, so in the retry loop of
`_call_simple_api`, whenever an attempt fails with a timeout-classified error
while retries remain, the backoff line raises a `NameError` instead of
sleeping: the call makes exactly one attempt, performs no sleep, and
terminates with the `NameError` — no second social/live-search attempt ever
follows a timeout. -/
theorem c9_grok_nameerror_on_timeout_backoff :
    Grok.importsAsyncio = false ∧
    ∀ (adapter : Nat → Grok.ApiOutcome) (msg : String),
      Grok.make_api_call (adapter 0) = .error msg →
      containsSub (pyLower msg) "timeout" = true →
      (Grok.call_simple_api adapter).attempts = 1 ∧
      (Grok.call_simple_api adapter).result = .error (.nameError "asyncio") ∧
      (Grok.call_simple_api adapter).sleeps = [] := by
  refine ⟨by decide, ?_⟩
  intro adapter msg h hto
  have : Grok.call_simple_api adapter = ⟨.error (.nameError "asyncio"), 1, []⟩ := by
    unfold Grok.call_simple_api Grok.callSimpleApiGo
    simp [h, hto, Grok.backoffStep, Grok.importsAsyncio, Grok.moduleBoundNames]
  rw [this]
  exact ⟨rfl, rfl, rfl⟩

/-- C9 witness: the always-timing-out Grok adapter stub. -/
theorem c9_grok_nameerror_on_timeout_backoff_witness :
    (Grok.call_simple_api alwaysTimeoutG).attempts = 1 ∧
    (Grok.call_simple_api alwaysTimeoutG).result = .error (.nameError "asyncio") ∧
    (Grok.call_simple_api alwaysTimeoutG).sleeps = [] :=
  c9_grok_nameerror_on_timeout_backoff.2 alwaysTimeoutG
    "Grok API timeout: The request took too long to complete. Please try again with a simpler prompt or try later when the service is less busy."
    rfl (by decide)

/-- C2 counterexample: against an adapter that times out on every attempt,
the social/live-search call does not make the claimed 2 attempts — the
missing `asyncio` import makes the first backoff raise a `NameError`, so
exactly one attempt is made and the call does not terminate with a
timeout-classified error. -/
theorem c2_counterexample :
    (Grok.call_simple_api alwaysTimeoutG).attempts = 1 ∧
    (Grok.call_simple_api alwaysTimeoutG).attempts ≠ 2 ∧
    (Grok.call_simple_api alwaysTimeoutG).result = .error (.nameError "asyncio") := by
  refine ⟨rfl, by decide, rfl⟩

/-- C2 (amended): against an always-timing-out adapter, the document call
makes exactly 3 attempts with per-attempt timeouts 30s/60s/120s, the video
call 3 attempts with 60s/120s/240s, the URL-fetch sub-call 3 attempts with
30s/60s/120s, each sleeping 2^attempt seconds between attempts and
terminating with its timeout-classified error; the social/live-search call is
coded for 3 iterations (`range(max_retries + 1)` with `max_retries = 2`) but
makes exactly 1 attempt and terminates with a `NameError`, because the
backoff line's `asyncio` is unresolved. -/
theorem c2_amended_attempt_schedules :
    (∀ (fetch : String → Nat → Gemini.FetchOutcome) (fb : Gemini.FallbackOutcome),
      (Gemini.call_gemini_api_with_pdf (.bytes "doc") fetch alwaysTimeoutA fb).attempts = 3 ∧
      (Gemini.call_gemini_api_with_pdf (.bytes "doc") fetch alwaysTimeoutA fb).timeouts = [30, 60, 120] ∧
      (Gemini.call_gemini_api_with_pdf (.bytes "doc") fetch alwaysTimeoutA fb).sleeps = [1, 2] ∧
      (Gemini.call_gemini_api_with_pdf (.bytes "doc") fetch alwaysTimeoutA fb).result = .error (.pdfTimeout 3)) ∧
    ((Gemini.call_gemini_api_with_youtube alwaysTimeoutA).attempts = 3 ∧
      (Gemini.call_gemini_api_with_youtube alwaysTimeoutA).timeouts = [60, 120, 240] ∧
      (Gemini.call_gemini_api_with_youtube alwaysTimeoutA).sleeps = [1, 2] ∧
      (Gemini.call_gemini_api_with_youtube alwaysTimeoutA).result = .error (.ytTimeout 3)) ∧
    (∀ u : String,
      (Gemini.fetch_url_content u alwaysTimeoutF).attempts = 3 ∧
      (Gemini.fetch_url_content u alwaysTimeoutF).timeouts = [30, 60, 120] ∧
      (Gemini.fetch_url_content u alwaysTimeoutF).sleeps = [1, 2] ∧
      (Gemini.fetch_url_content u alwaysTimeoutF).result = .error (.fetchTimeout u 3)) ∧
    ((Grok.call_simple_api alwaysTimeoutG).attempts = 1 ∧
      (Grok.call_simple_api alwaysTimeoutG).result = .error (.nameError "asyncio")) := by
  refine ⟨fun fetch fb => ⟨rfl, rfl, rfl, rfl⟩, ⟨rfl, rfl, rfl, rfl⟩,
    fun u => ⟨rfl, rfl, rfl, rfl⟩, rfl, rfl⟩

/-- C1 counterexample: a document-path adapter failing every attempt with a
non-timeout error (HTTP 500) is not raised on its first occurrence — the
generic `except` handler retries it, three attempts are made, and the error
is raised only after the last one. -/
theorem c1_counterexample :
    (Gemini.call_gemini_api_with_pdf (.bytes "doc") noFetch always500 fb0).attempts = 3 ∧
    (Gemini.call_gemini_api_with_pdf (.bytes "doc") noFetch always500 fb0).attempts ≠ 1 ∧
    (Gemini.call_gemini_api_with_pdf (.bytes "doc") noFetch always500 fb0).result =
      .error (.apiError 500 "Internal Server Error") := by
  refine ⟨rfl, by decide, rfl⟩

/-- C1 (amended): on the DocVideo document path a failing attempt is retried
whatever its classification — a constant non-timeout failure is re-attempted
until the 3-attempt budget is exhausted and raised only then; the
no-usable-text case triggers the single non-retried 4.3.1 fallback on its
first occurrence; only the SocialLive path raises a non-timeout failure
immediately on the first attempt. -/
theorem c1_amended_retry_policy :
    (∀ (s : Nat) (b : String) (fetch : String → Nat → Gemini.FetchOutcome)
        (fb : Gemini.FallbackOutcome),
      (Gemini.call_gemini_api_with_pdf (.bytes "doc") fetch (fun _ => .httpError s b) fb).attempts = 3 ∧
      (Gemini.call_gemini_api_with_pdf (.bytes "doc") fetch (fun _ => .httpError s b) fb).sleeps = [1, 2] ∧
      (Gemini.call_gemini_api_with_pdf (.bytes "doc") fetch (fun _ => .httpError s b) fb).result =
        .error (.apiError s b)) ∧
    (∀ (fetch : String → Nat → Gemini.FetchOutcome) (fb : Gemini.FallbackOutcome)
        (adapter : Nat → Gemini.AttemptOutcome) (resp : Gemini.Response),
      adapter 0 = .ok resp → Gemini.extractPdfText resp = none →
      (Gemini.call_gemini_api_with_pdf (.bytes "doc") fetch adapter fb).attempts = 1 ∧
      (Gemini.call_gemini_api_with_pdf (.bytes "doc") fetch adapter fb).result =
        .ok (Gemini.fallback_text_processing fb)) ∧
    (∀ (adapter : Nat → Grok.ApiOutcome) (msg : String),
      Grok.make_api_call (adapter 0) = .error msg →
      containsSub (pyLower msg) "timeout" = false →
      (Grok.call_simple_api adapter).attempts = 1 ∧
      (Grok.call_simple_api adapter).result = .error (.raised msg)) := by
  refine ⟨fun s b fetch fb => ⟨rfl, rfl, rfl⟩, ?_, ?_⟩
  · intro fetch fb adapter resp h hex
    have : Gemini.call_gemini_api_with_pdf (.bytes "doc") fetch adapter fb =
        ⟨.ok (Gemini.fallback_text_processing fb), 1, [30], []⟩ := by
      unfold Gemini.call_gemini_api_with_pdf Gemini.buildPdfData Gemini.pdfLoopGo
      simp [h, hex]
    rw [this]
    exact ⟨rfl, rfl⟩
  · intro adapter msg h hto
    have : Grok.call_simple_api adapter = ⟨.error (.raised msg), 1, []⟩ := by
      unfold Grok.call_simple_api Grok.callSimpleApiGo
      simp [h, hto]
    rw [this]
    exact ⟨rfl, rfl⟩

/-- C1 witness: the fallback branch at a blank-text response, and the
immediate raise of a non-timeout Grok failure, each at a concrete stub. -/
theorem c1_amended_retry_policy_witness :
    ((Gemini.call_gemini_api_with_pdf (.bytes "doc") noFetch blankAdapter fb0).attempts = 1 ∧
      (Gemini.call_gemini_api_with_pdf (.bytes "doc") noFetch blankAdapter fb0).result =
        .ok (Gemini.fallback_text_processing fb0)) ∧
    ((Grok.call_simple_api grok500).attempts = 1 ∧
      (Grok.call_simple_api grok500).result = .error (.raised "Grok API error: 500 - Bad")) :=
  ⟨c1_amended_retry_policy.2.1 noFetch fb0 blankAdapter blankResp rfl (by decide),
   c1_amended_retry_policy.2.2 grok500 "Grok API error: 500 - Bad" rfl (by decide)⟩

/-- C3 counterexample: when the primary call returns a structurally valid
response whose only text is blank (no usable text) and the fallback call
returns a present but blank text, the result is success:true with an *empty*
output — not the claimed non-empty placeholder string. -/
theorem c3_counterexample :
    (Gemini.process_documents (.bytes "doc") noFetch blankAdapter (.okText "") "p").success = true ∧
    (Gemini.process_documents (.bytes "doc") noFetch blankAdapter (.okText "") "p").output = some "" ∧
    (Gemini.process_documents (.bytes "doc") noFetch blankAdapter (.okText "") "p").output ≠
      some Gemini.unableMsg := by
  refine ⟨rfl, rfl, by decide⟩

/-- C3 (amended): on the document path, a structurally valid primary response
with no usable text makes the fallback call's text the output of a
success:true result with no error key — this path never raises and never
yields success:false; when the fallback fails or its response lacks the text
structure the output is the non-empty placeholder, while a fallback response
carrying a present but blank text is returned verbatim. -/
theorem c3_amended_fallback_degradation :
    (∀ fb : Gemini.FallbackOutcome, fb.producedText = false →
      Gemini.fallback_text_processing fb = Gemini.unableMsg ∧ Gemini.unableMsg ≠ "") ∧
    (∀ (pdf : Gemini.PdfData) (fetch : String → Nat → Gemini.FetchOutcome)
        (adapter : Nat → Gemini.AttemptOutcome) (fb : Gemini.FallbackOutcome)
        (prompt : String) (resp : Gemini.Response),
      Gemini.buildPdfData fetch pdf = .ok () →
      adapter 0 = .ok resp → Gemini.extractPdfText resp = none →
      (Gemini.process_documents pdf fetch adapter fb prompt).success = true ∧
      (Gemini.process_documents pdf fetch adapter fb prompt).output =
        some (Gemini.fallback_text_processing fb) ∧
      (Gemini.process_documents pdf fetch adapter fb prompt).error = none) := by
  constructor
  · intro fb hfb
    refine ⟨?_, by decide⟩
    cases fb
    case okText t => simp [Gemini.FallbackOutcome.producedText] at hfb
    all_goals rfl
  · intro pdf fetch adapter fb prompt resp hbuild h hex
    have hc : Gemini.call_gemini_api_with_pdf pdf fetch adapter fb =
        ⟨.ok (Gemini.fallback_text_processing fb), 1, [30], []⟩ := by
      unfold Gemini.call_gemini_api_with_pdf
      rw [hbuild]
      unfold Gemini.pdfLoopGo
      simp [h, hex]
    unfold Gemini.process_documents
    rw [hc]
    exact ⟨rfl, rfl, rfl⟩

/-- C3 witness: blank primary text with a failing fallback yields the
placeholder. -/
theorem c3_amended_fallback_degradation_witness :
    (Gemini.fallback_text_processing .noCandidates = Gemini.unableMsg ∧
      Gemini.unableMsg ≠ "") ∧
    ((Gemini.process_documents (.bytes "doc") noFetch blankAdapter .noCandidates "p").success = true ∧
      (Gemini.process_documents (.bytes "doc") noFetch blankAdapter .noCandidates "p").output =
        some (Gemini.fallback_text_processing .noCandidates) ∧
      (Gemini.process_documents (.bytes "doc") noFetch blankAdapter .noCandidates "p").error = none) :=
  ⟨c3_amended_fallback_degradation.1 .noCandidates rfl,
   c3_amended_fallback_degradation.2 (.bytes "doc") noFetch blankAdapter .noCandidates "p"
     blankResp rfl rfl (by decide)⟩

/-- C6: result-shape invariant — every `process_documents` result and every
`process_file` result (over provider calls whose dicts satisfy the invariant)
has: success = false implies a present non-empty error and no output, and
success = true implies a present output and no error; the Degraded
soft-success placeholder is itself non-empty and is exactly what the fallback
returns whenever it produced no text. -/
theorem c6_result_shape_invariant :
    (∀ (pdf : Gemini.PdfData) (fetch : String → Nat → Gemini.FetchOutcome)
        (adapter : Nat → Gemini.AttemptOutcome) (fb : Gemini.FallbackOutcome)
        (prompt : String),
      shapeOk (Gemini.process_documents pdf fetch adapter fb prompt)) ∧
    (∀ (db : AIHelper.DbOutcome) (llm : LlmService → String → String → ResultDict)
        (prompt : String),
      (∀ svc u p, shapeOk (llm svc u p)) →
      shapeOk (AIHelper.process_file db llm prompt)) ∧
    (Gemini.unableMsg ≠ "" ∧
      ∀ fb : Gemini.FallbackOutcome, fb.producedText = false →
        Gemini.fallback_text_processing fb = Gemini.unableMsg) := by
  refine ⟨?_, ?_, by decide, ?_⟩
  · intro pdf fetch adapter fb prompt
    unfold Gemini.process_documents
    rcases h : (Gemini.call_gemini_api_with_pdf pdf fetch adapter fb).result with e | t
    · refine ⟨fun _ => ⟨rfl, by simp, ?_⟩, fun hs => by simp at hs⟩
      simp only [ne_eq, Option.some.injEq]
      exact errorMessage_ne_empty e
    · exact ⟨fun hs => by simp at hs, fun _ => ⟨rfl, by simp⟩⟩
  · intro db llm prompt hllm
    cases db with
    | raised m =>
      refine ⟨fun _ => ⟨rfl, by simp [AIHelper.process_file], ?_⟩,
        fun hs => by simp [AIHelper.process_file] at hs⟩
      simp only [AIHelper.process_file, ne_eq, Option.some.injEq]
      exact classify_file_error_ne_empty m
    | notFound =>
      exact ⟨fun _ => ⟨rfl, by simp [AIHelper.process_file], by simp [AIHelper.process_file]⟩,
        fun hs => by simp [AIHelper.process_file] at hs⟩
    | found url ftype name =>
      have hr := hllm (get_llm_service ftype) url
        (enhance_prompt_with_context prompt ftype (some (name.getD "Unknown file")))
      unfold AIHelper.process_file
      exact ⟨fun hs => hr.1 hs, fun hs => hr.2 hs⟩
  · intro fb hfb
    cases fb
    case okText t => simp [Gemini.FallbackOutcome.producedText] at hfb
    all_goals rfl

/-- C6 witness: a not-found database row with a well-shaped provider stub. -/
theorem c6_result_shape_invariant_witness :
    shapeOk (AIHelper.process_file .notFound llmOk "p") :=
  c6_result_shape_invariant.2.1 .notFound llmOk "p" (fun _ _ _ => by
    constructor
    · intro h
      simp [llmOk] at h
    · intro _
      exact ⟨rfl, by simp [llmOk]⟩)

/-- C7 counterexample: a `process_file` invocation whose database lookup finds
no row returns a result that carries none of providerId (service), modelName,
contentKind or originalInstruction — the claimed unconditional provenance
stamping fails. -/
theorem c7_counterexample :
    (AIHelper.process_file .notFound llmOk "p").success = false ∧
    (AIHelper.process_file .notFound llmOk "p").service = none ∧
    (AIHelper.process_file .notFound llmOk "p").model = none ∧
    (AIHelper.process_file .notFound llmOk "p").contentType = none ∧
    (AIHelper.process_file .notFound llmOk "p").originalPrompt = none :=
  ⟨rfl, rfl, rfl, rfl, rfl⟩

/-- C7 (amended): only on the found path does `process_file` stamp
contentKind and originalInstruction on the provider's dict, passing the
provider's service and model fields through unchanged; the Gemini document
provider supplies service on both outcomes but supplies model only on
success; the not-found and exception paths carry none of the four fields. -/
theorem c7_amended_provenance_stamping :
    (∀ (url ftype : String) (name : Option String)
        (llm : LlmService → String → String → ResultDict) (prompt : String),
      (AIHelper.process_file (.found url ftype name) llm prompt).contentType = some ftype ∧
      (AIHelper.process_file (.found url ftype name) llm prompt).originalPrompt = some prompt ∧
      (AIHelper.process_file (.found url ftype name) llm prompt).service =
        (llm (get_llm_service ftype) url
          (enhance_prompt_with_context prompt ftype (some (name.getD "Unknown file")))).service ∧
      (AIHelper.process_file (.found url ftype name) llm prompt).model =
        (llm (get_llm_service ftype) url
          (enhance_prompt_with_context prompt ftype (some (name.getD "Unknown file")))).model) ∧
    (∀ (pdf : Gemini.PdfData) (fetch : String → Nat → Gemini.FetchOutcome)
        (adapter : Nat → Gemini.AttemptOutcome) (fb : Gemini.FallbackOutcome)
        (prompt : String),
      (Gemini.process_documents pdf fetch adapter fb prompt).service = some "gemini" ∧
      ((Gemini.process_documents pdf fetch adapter fb prompt).success = false →
        (Gemini.process_documents pdf fetch adapter fb prompt).model = none)) ∧
    (∀ (llm : LlmService → String → String → ResultDict) (prompt m : String),
      (AIHelper.process_file .notFound llm prompt).service = none ∧
      (AIHelper.process_file .notFound llm prompt).model = none ∧
      (AIHelper.process_file .notFound llm prompt).contentType = none ∧
      (AIHelper.process_file .notFound llm prompt).originalPrompt = none ∧
      (AIHelper.process_file (.raised m) llm prompt).service = none ∧
      (AIHelper.process_file (.raised m) llm prompt).model = none ∧
      (AIHelper.process_file (.raised m) llm prompt).contentType = none ∧
      (AIHelper.process_file (.raised m) llm prompt).originalPrompt = none) := by
  refine ⟨fun url ftype name llm prompt => ⟨rfl, rfl, rfl, rfl⟩, ?_,
    fun llm prompt m => ⟨rfl, rfl, rfl, rfl, rfl, rfl, rfl, rfl⟩⟩
  intro pdf fetch adapter fb prompt
  unfold Gemini.process_documents
  rcases h : (Gemini.call_gemini_api_with_pdf pdf fetch adapter fb).result with e | t
  · exact ⟨rfl, fun _ => rfl⟩
  · exact ⟨rfl, fun hs => by simp at hs⟩

/-- C7 witness: the stamping on a found row with a stub provider, and the
missing model on a concrete failed document call. -/
theorem c7_amended_provenance_stamping_witness :
    ((AIHelper.process_file (.found "u" "pdf" (some "f")) llmOk "p").contentType = some "pdf" ∧
      (AIHelper.process_file (.found "u" "pdf" (some "f")) llmOk "p").originalPrompt = some "p" ∧
      (AIHelper.process_file (.found "u" "pdf" (some "f")) llmOk "p").service =
        (llmOk (get_llm_service "pdf") "u"
          (enhance_prompt_with_context "p" "pdf" (some ((some "f").getD "Unknown file")))).service ∧
      (AIHelper.process_file (.found "u" "pdf" (some "f")) llmOk "p").model =
        (llmOk (get_llm_service "pdf") "u"
          (enhance_prompt_with_context "p" "pdf" (some ((some "f").getD "Unknown file")))).model) ∧
    (Gemini.process_documents (.bytes "doc") noFetch always500 fb0 "p").model = none :=
  ⟨c7_amended_provenance_stamping.1 "u" "pdf" (some "f") llmOk "p",
   (c7_amended_provenance_stamping.2.1 (.bytes "doc") noFetch always500 fb0 "p").2 rfl⟩

/-- C8: the SocialLive (Grok) payload is always a two-message chat payload
(system then user); its live-search directive is attached exactly when a URL
is present and matches the social-platform pattern ("twitter.com" or "x.com"
as a substring), and any attached directive requests mode "auto", X sources,
citation return and at most 3 search results; at the process level a string
locator gets the directive exactly when it matches the pattern and a
non-string locator never does; the WebText (Perplexity) payload never carries
a search key for any locator. -/
theorem c8_live_search_directive :
    (∀ (sys usr : String) (url : Option String),
      (Grok.buildPayload sys usr url).messages.map Prod.fst = ["system", "user"]) ∧
    (∀ (sys usr u : String),
      (Grok.buildPayload sys usr (some u)).searchParameters.isSome =
        (containsSub u "twitter.com" || containsSub u "x.com")) ∧
    (∀ (sys usr : String), (Grok.buildPayload sys usr none).searchParameters = none) ∧
    (∀ (sys usr : String) (url : Option String) (sp : Grok.SearchParams),
      (Grok.buildPayload sys usr url).searchParameters = some sp →
      sp.mode = "auto" ∧ sp.sources = ["x"] ∧ sp.returnCitations = true ∧
        sp.maxSearchResults = 3) ∧
    (∀ (s prompt : String),
      (Grok.processPayload (.str s) prompt).searchParameters.isSome =
        (containsSub s "twitter.com" || containsSub s "x.com")) ∧
    (∀ prompt : String, (Grok.processPayload .other prompt).searchParameters = none) ∧
    (∀ (content : Perplexity.PContent) (prompt : String),
      (Perplexity.processPayload content prompt).search = none) := by
  refine ⟨?_, ?_, fun sys usr => rfl, ?_, ?_, fun prompt => rfl, fun content prompt => rfl⟩
  · intro sys usr url
    cases url <;> rfl
  · intro sys usr u
    by_cases h : (containsSub u "twitter.com" || containsSub u "x.com") = true <;>
      simp [Grok.buildPayload, h]
  · intro sys usr url sp hsp
    cases url with
    | none => simp [Grok.buildPayload] at hsp
    | some u =>
      by_cases h : (containsSub u "twitter.com" || containsSub u "x.com") = true
      · simp [Grok.buildPayload, h] at hsp
        subst hsp
        exact ⟨rfl, rfl, rfl, rfl⟩
      · simp [Grok.buildPayload, h] at hsp
  · intro s prompt
    unfold Grok.processPayload Grok.extractUrl
    by_cases h : (containsSub s "twitter.com" || containsSub s "x.com") = true
    · simp [h, Grok.buildPayload]
    · simp only [h]
      by_cases h2 : s.startsWith "http" = true <;> simp [h2, Grok.buildPayload, h]

/-- The live-search directive attached for X URLs, as a value. -/
def xDirective : Grok.SearchParams := ⟨"auto", ["x"], true, 3⟩

/-- C8 witness: a social URL receives the bounded, citing directive; the same
URL as a forum locator through Perplexity gets none. -/
theorem c8_live_search_directive_witness :
    ((Grok.processPayload (.str "https://x.com/user/status/1") "p").searchParameters.isSome =
      (containsSub "https://x.com/user/status/1" "twitter.com" ||
        containsSub "https://x.com/user/status/1" "x.com")) ∧
    (xDirective.mode = "auto" ∧ xDirective.sources = ["x"] ∧
      xDirective.returnCitations = true ∧ xDirective.maxSearchResults = 3) ∧
    (Perplexity.processPayload (.str "https://x.com/user/status/1") "p").search = none :=
  ⟨c8_live_search_directive.2.2.2.2.1 "https://x.com/user/status/1" "p",
   c8_live_search_directive.2.2.2.1 Grok.systemPrompt "p"
     (some "https://x.com/user/status/1") xDirective rfl,
   c8_live_search_directive.2.2.2.2.2.2 (.str "https://x.com/user/status/1") "p"⟩

/-- Default value used for positional indexing into result lists. -/
def dfltResult : ResultDict := { success := false }

/-- Default value used for positional indexing into item lists. -/
def dfltItem : Gemini.ContentItem := .bytes ""

/-- The per-item result list has one result per item. -/
theorem process_content_list_length (env : Nat → Gemini.DocEnv) (prompt : String) :
    ∀ (items : List Gemini.ContentItem) (idx : Nat),
      (Gemini.process_content_list env prompt idx items).length = items.length := by
  intro items
  induction items with
  | nil => intro idx; rfl
  | cons i rest ih =>
    intro idx
    simp [Gemini.process_content_list, ih (idx + 1)]

/-- The per-item result list is positional: entry `k` is the processing of
item `k` under its own environment. -/
theorem process_content_list_getD (env : Nat → Gemini.DocEnv) (prompt : String) :
    ∀ (items : List Gemini.ContentItem) (idx k : Nat), k < items.length →
      (Gemini.process_content_list env prompt idx items).getD k dfltResult =
        Gemini.process_content_item (items.getD k dfltItem) (env (idx + k)) prompt := by
  intro items
  induction items with
  | nil => intro idx k hk; simp at hk
  | cons i rest ih =>
    intro idx k hk
    cases k with
    | zero => simp [Gemini.process_content_list]
    | succ k =>
      have hk2 : k < rest.length := by simpa using hk
      have := ih (idx + 1) k hk2
      simp only [Gemini.process_content_list, List.getD_cons_succ]
      rw [this]
      have harith : idx + 1 + k = idx + (k + 1) := by omega
      rw [harith]

/-- C10: a batch (list) submission of two or more items to the Gemini
(DocVideo) provider always produces the composite "mixed" result with
success = true — whatever the per-item outcomes, including all of them
failing — with one positional per-item result per submitted item. -/
theorem c10_batch_mixed_success :
    ∀ (items : List Gemini.ContentItem) (env : Nat → Gemini.DocEnv) (prompt : String),
      2 ≤ items.length →
      ∃ m : Gemini.MixedResult,
        Gemini.process_content (.many items) env prompt = .mixed m ∧
        m.success = true ∧
        m.contentType = some "mixed" ∧
        m.output.length = items.length ∧
        ∀ k, k < items.length →
          m.output.getD k dfltResult =
            Gemini.process_content_item (items.getD k dfltItem) (env k) prompt := by
  intro items env prompt hlen
  match items, hlen with
  | a :: b :: t, _ =>
    refine ⟨{ success := true,
              output := Gemini.process_content_list env prompt 0 (a :: b :: t),
              model := some "gemini-2.5-flash", service := some "gemini",
              contentType := some "mixed", prompt := some prompt }, ?_, rfl, rfl, ?_, ?_⟩
    · unfold Gemini.process_content
      simp only [Gemini.process_content_list]
    · exact process_content_list_length env prompt (a :: b :: t) 0
    · intro k hk
      have := process_content_list_getD env prompt (a :: b :: t) 0 k hk
      simpa using this

/-- An environment whose document adapter fails every attempt. -/
def envAllFail : Nat → Gemini.DocEnv :=
  fun _ => ⟨noFetch, always500, fb0, always500⟩

/-- C10 witness: a two-item batch against the all-failing environment. -/
theorem c10_batch_mixed_success_witness :
    2 ≤ ([Gemini.ContentItem.bytes "a", Gemini.ContentItem.bytes "b"] : List Gemini.ContentItem).length ∧
    ∃ m : Gemini.MixedResult,
      Gemini.process_content (.many [.bytes "a", .bytes "b"]) envAllFail "p" = .mixed m ∧
      m.success = true ∧
      m.contentType = some "mixed" ∧
      m.output.length = ([Gemini.ContentItem.bytes "a", Gemini.ContentItem.bytes "b"] : List Gemini.ContentItem).length ∧
      ∀ k, k < ([Gemini.ContentItem.bytes "a", Gemini.ContentItem.bytes "b"] : List Gemini.ContentItem).length →
        m.output.getD k dfltResult =
          Gemini.process_content_item ([Gemini.ContentItem.bytes "a", Gemini.ContentItem.bytes "b"].getD k dfltItem)
            (envAllFail k) "p" :=
  ⟨by decide,
   c10_batch_mixed_success [.bytes "a", .bytes "b"] envAllFail "p" (by decide)⟩
